import Mathlib

/-!
# art-gallery: the lightbox, the keydown effect, Reveal and the image fallback

A shallow embedding of `src/App.jsx`.  JavaScript numbers that hold indices are
modelled as `Int`, `null` as `none`; React state updates are queued actions that
are applied in order when the event handler returns; the `useEffect` keyed on
`[lightboxIndex]` is explicit state (the registered listeners and the pending
cleanup).
-/

namespace ArtGallery

/-! ## Platform functions used by `placeholderSvg` -/

/-- UTF-8 code units of a character, as numbers. -/
def utf8Units (c : Char) : List Nat :=
  let n := c.toNat
  if n < 0x80 then [n]
  else if n < 0x800 then [0xC0 + n / 64, 0x80 + n % 64]
  else if n < 0x10000 then [0xE0 + n / 4096, 0x80 + n / 64 % 64, 0x80 + n % 64]
  else [0xF0 + n / 262144, 0x80 + n / 4096 % 64, 0x80 + n / 64 % 64, 0x80 + n % 64]

/-- Upper-case hexadecimal digit. -/
def hexDigit (d : Nat) : Char :=
  if d < 10 then Char.ofNat (48 + d) else Char.ofNat (55 + d)

/-- One code unit written as `%XX`. -/
def percentEncode (b : Nat) : List Char :=
  ['%', hexDigit (b / 16), hexDigit (b % 16)]

/-- Characters `encodeURIComponent` leaves as they are: ASCII letters, digits and
`- _ . ! ~ * ' ( )`. -/
def uriUnreserved (c : Char) : Bool :=
  c.isAlphanum || [45, 95, 46, 33, 126, 42, 39, 40, 41].contains c.toNat

/-- ECMAScript `encodeURIComponent` on a well-formed string. -/
def encodeURIComponent (s : String) : String :=
  String.mk (s.toList.flatMap fun c =>
    if uriUnreserved c then [c] else (utf8Units c).flatMap percentEncode)

/-! ## Data model (lines 9-31) -/

/-- The function `placeholderSvg` (lines 9-16). -/
def placeholderSvg (label : String) : String :=
  let svg := "<svg xmlns=\"http://www.w3.org/2000/svg\" width=\"900\" height=\"1200\" viewBox=\"0 0 900 1200\">\n    <rect width=\"900\" height=\"1200\" fill=\"#f4f1eb\"/>\n    <rect x=\"40\" y=\"40\" width=\"820\" height=\"1120\" fill=\"none\" stroke=\"#1b1b1d\" stroke-width=\"3\"/>\n    <text x=\"50%\" y=\"50%\" text-anchor=\"middle\" font-size=\"42\" font-family=\"Space Grotesk, sans-serif\" fill=\"#1b1b1d\">"
    ++ label ++ "</text>\n  </svg>"
  "data:image/svg+xml;utf8," ++ encodeURIComponent svg

/-- An entry of the array literal of lines 19-27, before the `.map`. -/
structure RawItem where
  title : String
  year : String
  src : String
deriving DecidableEq, Repr

/-- An element of `galleryItems`. -/
structure GalleryItem where
  title : String
  year : String
  src : String
  fallback : String
deriving DecidableEq, Repr

/-- The array literal of lines 19-27. -/
def rawItems : List RawItem :=
  [ { title := "Fullmetal Alchemist", year := "2020", src := "/art/FMA.jpg" },
    { title := "Golden Experience Requiem", year := "2019", src := "/art/Giorno.jpg" },
    { title := "Himiko Toga", year := "2020", src := "/art/TOGA.jpg" },
    { title := "Super Saiyan 3", year := "2019", src := "/art/SSJ3.jpg" },
    { title := "Frankenstein", year := "2019", src := "/art/FRANK.jpg" },
    { title := "Edward Elric", year := "2020", src := "/art/ED.jpg" },
    { title := "Josuke Higashikata", year := "2019", src := "/art/JOSUKE.jpg" },
    { title := "Goku", year := "2019", src := "/art/GOKU.jpg" },
    { title := "Jotaro", year := "2019", src := "/art/JOTARO.jpg" } ]

/-- The callback of the `.map` of lines 28-31: `{ ...item, fallback: placeholderSvg(item.title) }`. -/
def withFallback (item : RawItem) : GalleryItem :=
  { title := item.title, year := item.year, src := item.src,
    fallback := placeholderSvg item.title }

/-- The constant `galleryItems` (lines 18-31). -/
def galleryItems : List GalleryItem :=
  rawItems.map withFallback

/-- The lookup `items[i]` for a JavaScript number `i`: `undefined` (`none`) outside the array. -/
def itemAt (items : List GalleryItem) (i : Int) : Option GalleryItem :=
  if 0 ≤ i then items[i.toNat]? else none

/-! ## Index arithmetic (lines 119, 122, 139, 143) -/

/-- JavaScript `a % b` on integers, `b ≠ 0`: the remainder takes the sign of `a`. -/
def jsRem (a b : Int) : Int :=
  Int.tmod a b

/-- The updater `(prev) => (prev + 1) % galleryItems.length`, `len = galleryItems.length`. -/
def nextIndex (len : Nat) (prev : Int) : Int :=
  jsRem (prev + 1) len

/-- The updater `(prev) => (prev - 1 + galleryItems.length) % galleryItems.length`. -/
def prevIndex (len : Nat) (prev : Int) : Int :=
  jsRem (prev - 1 + len) len

/-- JavaScript `ToNumber` on the lightbox state: `null` is `0`. -/
def toNumber : Option Int → Int
  | none => 0
  | some k => k

/-! ## State updates of `lightboxIndex` -/

/-- An argument of `setLightboxIndex`: a value, or one of the two updater functions. -/
inductive SetStateAction where
  /-- The call `setLightboxIndex(v)` with `v` a number or `null`. -/
  | value (v : Option Int)
  /-- The call `setLightboxIndex((prev) => (prev + 1) % galleryItems.length)`. -/
  | next
  /-- The call `setLightboxIndex((prev) => (prev - 1 + galleryItems.length) % galleryItems.length)`. -/
  | prev
deriving DecidableEq, Repr

/-- What React computes for one queued `setLightboxIndex` call. -/
def applyAction (len : Nat) (state : Option Int) : SetStateAction → Option Int
  | .value v => v
  | .next => some (nextIndex len (toNumber state))
  | .prev => some (prevIndex len (toNumber state))

/-- The queued calls of one event, applied in the order they were made. -/
def applyActions (len : Nat) (state : Option Int) (actions : List SetStateAction) : Option Int :=
  actions.foldl (applyAction len) state

/-- The function `openLightbox` (lines 130-132). -/
def openLightbox (index : Int) : List SetStateAction :=
  [.value (some index)]

/-- The function `closeLightbox` (lines 134-136). -/
def closeLightbox : List SetStateAction :=
  [.value none]

/-- The function `showPrev` (lines 138-140). -/
def showPrev : List SetStateAction :=
  [.prev]

/-- The function `showNext` (lines 142-144). -/
def showNext : List SetStateAction :=
  [.next]

/-- The listener `handleKey` (lines 113-124), as the `setLightboxIndex` calls it makes for `event.key`. -/
def handleKey (key : String) : List SetStateAction :=
  if key = "Escape" then [.value none]
  else
    (if key = "ArrowRight" then [.next] else []) ++
    (if key = "ArrowLeft" then [.prev] else [])

/-! ## Click handlers and propagation (lines 196-201, 251-278) -/

/-- The elements of the page a click can land on that lie under a click handler, and the
lightbox elements. -/
inductive Element where
  /-- The `figure.gallery-card` of item `index`. -/
  | galleryCard (index : Nat)
  /-- The `img` inside the card of item `index`. -/
  | galleryCardImage (index : Nat)
  /-- The `figcaption` inside the card of item `index`. -/
  | galleryCardCaption (index : Nat)
  /-- The `div.lightbox`. -/
  | lightbox
  /-- The `button.lightbox-close`. -/
  | lightboxClose
  /-- The `button.lightbox-nav.prev`. -/
  | lightboxPrev
  /-- The `div.lightbox-body`. -/
  | lightboxBody
  /-- The `img` inside `div.lightbox-body`. -/
  | lightboxImage
  /-- The `div.lightbox-caption` inside `div.lightbox-body`. -/
  | lightboxCaption
  /-- The `button.lightbox-nav.next`. -/
  | lightboxNext
deriving DecidableEq, Repr

/-- The element itself followed by its ancestors that appear in `Element`, innermost first:
the order in which a bubbling click visits them. -/
def Element.bubblePath : Element → List Element
  | .galleryCard i => [.galleryCard i]
  | .galleryCardImage i => [.galleryCardImage i, .galleryCard i]
  | .galleryCardCaption i => [.galleryCardCaption i, .galleryCard i]
  | .lightbox => [.lightbox]
  | .lightboxClose => [.lightboxClose, .lightbox]
  | .lightboxPrev => [.lightboxPrev, .lightbox]
  | .lightboxBody => [.lightboxBody, .lightbox]
  | .lightboxImage => [.lightboxImage, .lightboxBody, .lightbox]
  | .lightboxCaption => [.lightboxCaption, .lightboxBody, .lightbox]
  | .lightboxNext => [.lightboxNext, .lightbox]

/-- What an `onClick` handler does: the state updates it queues and whether it calls
`event.stopPropagation()`. -/
structure ClickOutcome where
  actions : List SetStateAction
  stopPropagation : Bool
deriving DecidableEq, Repr

/-- The `onClick` prop of each element, `none` where the element has none. -/
def Element.onClick : Element → Option ClickOutcome
  | .galleryCard i => some { actions := openLightbox i, stopPropagation := false }
  | .lightboxClose => some { actions := closeLightbox, stopPropagation := false }
  | .lightboxPrev => some { actions := showPrev, stopPropagation := false }
  | .lightboxBody => some { actions := closeLightbox, stopPropagation := false }
  | .lightboxImage => some { actions := [], stopPropagation := true }
  | .lightboxNext => some { actions := showNext, stopPropagation := false }
  | _ => none

/-- Runs the handlers along a bubbling path until one stops the propagation. -/
def bubble : List Element → List SetStateAction
  | [] => []
  | e :: rest =>
    match e.onClick with
    | none => bubble rest
    | some h => if h.stopPropagation then h.actions else h.actions ++ bubble rest

/-- The state updates queued by a click whose target is `target`. -/
def dispatchClick (target : Element) : List SetStateAction :=
  bubble target.bubblePath

/-! ## The page state -/

/-- An `img` element with an `onError` handler (lines 62-65, 207-210, 263-266). -/
inductive Image where
  /-- The `img.hero-spotlight-image` of the slide of item `index`. -/
  | hero (index : Nat)
  /-- The `img` of the gallery card of item `index`. -/
  | grid (index : Nat)
  /-- The `img` of the lightbox. -/
  | lightbox
deriving DecidableEq, Repr

/-- The state of the mounted page: the two pieces of React state, the `keydown` listeners of
`window`, the cleanup left by the last run of the keydown effect, and the `src` attribute of
every `img` that has an `onError` handler. -/
structure AppState where
  /-- State of `App` (line 80); `none` is `null`. -/
  lightboxIndex : Option Int
  /-- State of `HeroSpotlight` (line 34). -/
  activeIndex : Int
  /-- The `handleKey` closures registered on `window`, each named by the number of the effect
  run that created it. -/
  keydownListeners : List Nat
  /-- The closure whose removal the last effect run returned (line 127), if it returned one. -/
  cleanup : Option Nat
  /-- Number of the next `handleKey` closure. -/
  nextHandler : Nat
  /-- The `src` attribute of each hero slide image. -/
  heroSrc : List String
  /-- The `src` attribute of each gallery card image. -/
  gridSrc : List String
  /-- The `src` attribute of the lightbox image, `none` while it is not in the document. -/
  lightboxSrc : Option String
deriving DecidableEq, Repr

/-- The cleanup of the keydown effect (line 127): `window.removeEventListener('keydown', handleKey)`. -/
def runCleanup (s : AppState) : AppState :=
  match s.cleanup with
  | none => s
  | some h => { s with keydownListeners := s.keydownListeners.erase h, cleanup := none }

/-- The body of the keydown effect (lines 110-127): returns at line 111 when `lightboxIndex`
is `null`, otherwise registers a new `handleKey` and returns its removal. -/
def keydownEffect (s : AppState) : AppState :=
  match s.lightboxIndex with
  | none => { s with cleanup := none }
  | some _ =>
    { s with
      keydownListeners := s.keydownListeners ++ [s.nextHandler]
      cleanup := some s.nextHandler
      nextHandler := s.nextHandler + 1 }

/-- The `src` attribute of the lightbox image after `App` renders with `lightboxIndex = new`
(lines 251-261): absent while closed, set on mount, and rewritten on an update only when the
`src` prop differs from the one of the previous render. -/
def renderLightboxSrc (items : List GalleryItem) (old new : Option Int)
    (dom : Option String) : Option String :=
  match new with
  | none => none
  | some j =>
    let src := (itemAt items j).map (·.src)
    match old with
    | none => src
    | some i => if (itemAt items i).map (·.src) = src then dom else src

/-- A render of `App` with a changed `lightboxIndex`, followed by the effects keyed on
`[lightboxIndex]`: the cleanup of the previous run, then the effect.  `Reveal` is declared
in the body of `App` (line 86), so every render of `App` yields a new component type and
what is below a `<Reveal>` (the gallery images, `HeroSpotlight` with its state) is mounted
afresh. -/
def render (items : List GalleryItem) (s : AppState) (new : Option Int) : AppState :=
  keydownEffect (runCleanup
    { s with
      lightboxIndex := new
      activeIndex := 0
      heroSrc := items.map (·.src)
      gridSrc := items.map (·.src)
      lightboxSrc := renderLightboxSrc items s.lightboxIndex new s.lightboxSrc })

/-- The end of an event handler that left `new` as the value of `lightboxIndex`: React
renders only when the value differs from the current one. -/
def commit (items : List GalleryItem) (s : AppState) (new : Option Int) : AppState :=
  if new = s.lightboxIndex then s else render items s new

/-- The first render of the page and the first run of the keydown effect. -/
def mount (items : List GalleryItem) : AppState :=
  keydownEffect
    { lightboxIndex := none
      activeIndex := 0
      keydownListeners := []
      cleanup := none
      nextHandler := 0
      heroSrc := items.map (·.src)
      gridSrc := items.map (·.src)
      lightboxSrc := none }

/-- Whether an element is in the document: a card per item (line 196), the lightbox only
while `lightboxIndex !== null` (line 251). -/
def rendered (items : List GalleryItem) (s : AppState) : Element → Bool
  | .galleryCard i => decide (i < items.length)
  | .galleryCardImage i => decide (i < items.length)
  | .galleryCardCaption i => decide (i < items.length)
  | _ => s.lightboxIndex.isSome

/-- The `onError` handlers (lines 62-65, 207-210, 263-266): `event.currentTarget.src` becomes
the fallback of the item the image was rendered for. -/
def onError (items : List GalleryItem) (s : AppState) : Image → AppState
  | .hero k =>
    match items[k]? with
    | some item => { s with heroSrc := s.heroSrc.set k item.fallback }
    | none => s
  | .grid k =>
    match items[k]? with
    | some item => { s with gridSrc := s.gridSrc.set k item.fallback }
    | none => s
  | .lightbox =>
    match s.lightboxIndex with
    | none => s
    | some i =>
      match itemAt items i with
      | some item => { s with lightboxSrc := some item.fallback }
      | none => s

/-- What the page reacts to. -/
inductive Event where
  /-- A click whose target is `target`. -/
  | click (target : Element)
  /-- A `keydown` on `window` with `event.key = key`. -/
  | keydown (key : String)
  /-- An `error` event on an image. -/
  | error (img : Image)
  /-- Swiper's `onSlideChange` with `swiper.realIndex = realIndex` (line 53). -/
  | slideChange (realIndex : Int)
deriving DecidableEq, Repr

/-- One event. A `keydown` runs every registered `handleKey`. -/
def step (items : List GalleryItem) (s : AppState) : Event → AppState
  | .click target =>
    if rendered items s target then
      commit items s (applyActions items.length s.lightboxIndex (dispatchClick target))
    else s
  | .keydown key =>
    commit items s
      (applyActions items.length s.lightboxIndex (s.keydownListeners.flatMap fun _ => handleKey key))
  | .error img => onError items s img
  | .slideChange realIndex =>
    if items.length = 0 then s else { s with activeIndex := realIndex }

/-- The state after a sequence of events on the freshly mounted page. -/
def run (items : List GalleryItem) (events : List Event) : AppState :=
  events.foldl (step items) (mount items)

/-- The `src` attribute an image currently has. -/
def AppState.displayedSrc (s : AppState) : Image → Option String
  | .hero k => s.heroSrc[k]?
  | .grid k => s.gridSrc[k]?
  | .lightbox => s.lightboxSrc

/-! ## Reveal (lines 86-108) -/

/-- The two variants of `fadeUp` (lines 81-84). -/
inductive Variant where
  | hidden
  | visible
deriving DecidableEq, Repr

/-- A mounted `Reveal`: the value `useInView(ref, { amount: 0.2 })` returned at the last
render and the variant last passed to `controls.start`. -/
structure RevealState where
  isInView : Bool
  animation : Variant
deriving DecidableEq, Repr

/-- The effect of lines 91-93: `controls.start(isInView ? 'visible' : 'hidden')`. -/
def Reveal.effect (isInView : Bool) : Variant :=
  if isInView then .visible else .hidden

/-- The first render of a `Reveal`: `useInView` starts at `false` and the effect runs once. -/
def Reveal.mount : RevealState :=
  { isInView := false, animation := Reveal.effect false }

/-- An observation of the section by `useInView`, which was given no `once` option: the hook
returns what was observed, and the effect, keyed on `[controls, isInView]`, runs again when
that value changed. -/
def Reveal.observe (s : RevealState) (inView : Bool) : RevealState :=
  if inView = s.isInView then s
  else { isInView := inView, animation := Reveal.effect inView }

/-- The state of a `Reveal` after a sequence of observations. -/
def Reveal.run (observations : List Bool) : RevealState :=
  observations.foldl Reveal.observe Reveal.mount

/-! ## The invariant of the page state -/

/-- What holds of every state the page reaches: one `src` per image, and either the lightbox
is closed with no listener and no pending cleanup, or it is open at an index of the list with
exactly the listener that the pending cleanup removes. -/
structure Valid (items : List GalleryItem) (s : AppState) : Prop where
  hero : s.heroSrc.length = items.length
  grid : s.gridSrc.length = items.length
  lightbox :
    (s.lightboxIndex = none ∧ s.keydownListeners = [] ∧ s.cleanup = none) ∨
    (∃ i h, s.lightboxIndex = some i ∧ 0 ≤ i ∧ i < (items.length : Int) ∧
      s.keydownListeners = [h] ∧ s.cleanup = some h)

/-- A value of `lightboxIndex` that is `null` or an index of a list of length `len`. -/
def ValidIndex (len : Nat) (v : Option Int) : Prop :=
  ∀ i, v = some i → 0 ≤ i ∧ i < (len : Int)

/-! ## Lemmas on the index arithmetic -/

theorem nextIndex_eq (len : Nat) (i : Int) (h0 : 0 ≤ i) (h1 : i < len) :
    nextIndex len i = if i + 1 < len then i + 1 else 0 := by
  unfold nextIndex jsRem
  rw [Int.tmod_eq_emod (a := i + 1) (b := len) (by omega) (by omega)]
  split
  · exact Int.emod_eq_of_lt (by omega) (by omega)
  · have h : i + 1 = (len : Int) := by omega
    rw [h, Int.emod_self]

theorem prevIndex_eq (len : Nat) (i : Int) (h0 : 0 ≤ i) (h1 : i < len) :
    prevIndex len i = if i = 0 then (len : Int) - 1 else i - 1 := by
  unfold prevIndex jsRem
  rw [Int.tmod_eq_emod (a := i - 1 + len) (b := len) (by omega) (by omega)]
  split
  · have h : i - 1 + (len : Int) = (len : Int) - 1 := by omega
    rw [h]
    exact Int.emod_eq_of_lt (by omega) (by omega)
  · rw [Int.add_emod_self]
    exact Int.emod_eq_of_lt (by omega) (by omega)

theorem nextIndex_emod (len : Nat) (i : Int) (h0 : 0 ≤ i) :
    nextIndex len i = (i + 1) % (len : Int) := by
  unfold nextIndex jsRem
  exact Int.tmod_eq_emod (by omega) (by omega)

theorem prevIndex_emod (len : Nat) (i : Int) (h0 : 0 ≤ i) (hlen : 1 ≤ len) :
    prevIndex len i = (i - 1 + len) % (len : Int) := by
  unfold prevIndex jsRem
  exact Int.tmod_eq_emod (by omega) (by omega)

theorem nextIndex_range (len : Nat) (i : Int) (h0 : 0 ≤ i) (h1 : i < len) :
    0 ≤ nextIndex len i ∧ nextIndex len i < len := by
  rw [nextIndex_eq len i h0 h1]
  split <;> omega

theorem prevIndex_range (len : Nat) (i : Int) (h0 : 0 ≤ i) (h1 : i < len) :
    0 ≤ prevIndex len i ∧ prevIndex len i < len := by
  rw [prevIndex_eq len i h0 h1]
  split <;> omega

theorem iterate_nextIndex (len : Nat) (i : Int) (h0 : 0 ≤ i) (h1 : i < len) (k : Nat) :
    Nat.iterate (nextIndex len) k i = (i + k) % (len : Int) := by
  induction k with
  | zero => simp [Int.emod_eq_of_lt h0 h1]
  | succ k ih =>
    rw [Function.iterate_succ_apply', ih,
      nextIndex_emod len _ (Int.emod_nonneg _ (by omega)), Int.emod_add_emod]
    push_cast
    rw [Int.add_assoc]

/-! ## Lemmas on the page state -/

theorem commit_lightboxIndex (items : List GalleryItem) (s : AppState) (new : Option Int) :
    (commit items s new).lightboxIndex = new := by
  unfold commit
  split
  · next h => exact h.symm
  · unfold render runCleanup keydownEffect
    cases new <;> cases s.cleanup <;> rfl

theorem mount_valid (items : List GalleryItem) : Valid items (mount items) := by
  refine ⟨?_, ?_, Or.inl ⟨rfl, rfl, rfl⟩⟩ <;> simp [mount, keydownEffect]

theorem commit_valid (items : List GalleryItem) (s : AppState) (new : Option Int)
    (hs : Valid items s) (hnew : ValidIndex items.length new) :
    Valid items (commit items s new) := by
  unfold commit
  split
  · exact hs
  · obtain ⟨_, _, hl⟩ := hs
    cases new with
    | none =>
      rcases hl with ⟨h1, h2, h3⟩ | ⟨i, h, h1, _, _, h2, h3⟩
      · refine ⟨?_, ?_, Or.inl ?_⟩ <;> simp [render, runCleanup, keydownEffect, h2, h3]
      · refine ⟨?_, ?_, Or.inl ?_⟩ <;> simp [render, runCleanup, keydownEffect, h2, h3]
    | some j =>
      obtain ⟨hj0, hj1⟩ := hnew j rfl
      rcases hl with ⟨h1, h2, h3⟩ | ⟨i, h, h1, _, _, h2, h3⟩
      · refine ⟨?_, ?_, Or.inr ⟨j, s.nextHandler, ?_⟩⟩ <;>
          simp [render, runCleanup, keydownEffect, h2, h3, hj0, hj1]
      · refine ⟨?_, ?_, Or.inr ⟨j, s.nextHandler, ?_⟩⟩ <;>
          simp [render, runCleanup, keydownEffect, h2, h3, hj0, hj1]

theorem validIndex_none (len : Nat) : ValidIndex len none := by
  intro i h
  cases h

theorem validIndex_some (len : Nat) (j : Int) (h0 : 0 ≤ j) (h1 : j < (len : Int)) :
    ValidIndex len (some j) := by
  intro i h
  cases h
  exact ⟨h0, h1⟩

theorem validIndex_applyAction (len : Nat) (v : Option Int) (a : SetStateAction)
    (hv : ValidIndex len v) (hopen : v ≠ none) (ha : ∀ w, a = .value w → ValidIndex len w) :
    ValidIndex len (applyAction len v a) := by
  cases v with
  | none => exact absurd rfl hopen
  | some i =>
    obtain ⟨h0, h1⟩ := hv i rfl
    cases a with
    | value w => exact ha w rfl
    | next =>
      have h := nextIndex_range len i h0 h1
      exact validIndex_some len _ h.1 h.2
    | prev =>
      have h := prevIndex_range len i h0 h1
      exact validIndex_some len _ h.1 h.2

theorem handleKey_cases (key : String) :
    handleKey key = [.value none] ∨ handleKey key = [.next] ∨ handleKey key = [.prev] ∨
      handleKey key = [] := by
  unfold handleKey
  by_cases h1 : key = "Escape"
  · simp [h1]
  · by_cases h2 : key = "ArrowRight"
    · subst h2
      simp
    · by_cases h3 : key = "ArrowLeft"
      · subst h3
        simp
      · simp [h1, h2, h3]

theorem validIndex_actions (len : Nat) (v : Option Int) (actions : List SetStateAction)
    (hv : ValidIndex len v) (hopen : v ≠ none)
    (ha : actions = [.value none] ∨ actions = [.next] ∨ actions = [.prev] ∨ actions = []) :
    ValidIndex len (applyActions len v actions) := by
  rcases ha with h | h | h | h <;> subst h
  · exact validIndex_none len
  · exact validIndex_applyAction len v .next hv hopen (fun w hw => by cases hw)
  · exact validIndex_applyAction len v .prev hv hopen (fun w hw => by cases hw)
  · exact hv

theorem valid_index (items : List GalleryItem) (s : AppState) (hs : Valid items s) :
    ValidIndex items.length s.lightboxIndex := by
  intro i hi
  rcases hs.lightbox with ⟨h1, _, _⟩ | ⟨j, _, h1, h0, hlt, _, _⟩
  · rw [h1] at hi
    cases hi
  · rw [h1] at hi
    cases hi
    exact ⟨h0, hlt⟩

theorem step_click (items : List GalleryItem) (s : AppState) (target : Element) :
    step items s (.click target) =
      if rendered items s target then
        commit items s (applyActions items.length s.lightboxIndex (dispatchClick target))
      else s := rfl

theorem step_keydown (items : List GalleryItem) (s : AppState) (key : String) :
    step items s (.keydown key) =
      commit items s (applyActions items.length s.lightboxIndex
        (s.keydownListeners.flatMap fun _ => handleKey key)) := rfl

theorem step_error (items : List GalleryItem) (s : AppState) (img : Image) :
    step items s (.error img) = onError items s img := rfl

theorem step_slideChange (items : List GalleryItem) (s : AppState) (realIndex : Int) :
    step items s (.slideChange realIndex) =
      if items.length = 0 then s else { s with activeIndex := realIndex } := rfl

theorem onError_valid (items : List GalleryItem) (s : AppState) (img : Image)
    (hs : Valid items s) : Valid items (onError items s img) := by
  obtain ⟨hh, hg, hl⟩ := hs
  cases img with
  | hero k =>
    simp only [onError]
    split
    · exact ⟨by simpa using hh, hg, hl⟩
    · exact ⟨hh, hg, hl⟩
  | grid k =>
    simp only [onError]
    split
    · exact ⟨hh, by simpa using hg, hl⟩
    · exact ⟨hh, hg, hl⟩
  | lightbox =>
    simp only [onError]
    split
    · exact ⟨hh, hg, hl⟩
    · split
      · exact ⟨hh, hg, hl⟩
      · exact ⟨hh, hg, hl⟩

theorem step_valid (items : List GalleryItem) (s : AppState) (e : Event)
    (hs : Valid items s) : Valid items (step items s e) := by
  have hidx := valid_index items s hs
  cases e with
  | click target =>
    rw [step_click]
    split
    · next hr =>
      apply commit_valid items s _ hs
      cases target with
      | galleryCard i | galleryCardImage i | galleryCardCaption i =>
        have hi : i < items.length := by simpa [rendered] using hr
        simp only [dispatchClick, Element.bubblePath, bubble, Element.onClick, openLightbox,
          applyActions, List.foldl, applyAction, Bool.false_eq_true, if_false, List.append_nil]
        exact validIndex_some _ _ (by omega) (by omega)
      | _ =>
        have hopen : s.lightboxIndex ≠ none := by
          intro h0
          simp [rendered, h0] at hr
        exact validIndex_actions _ _ _ hidx hopen (by
          simp [dispatchClick, Element.bubblePath, bubble, Element.onClick, closeLightbox,
            showNext, showPrev])
    · exact hs
  | keydown key =>
    rw [step_keydown]
    apply commit_valid items s _ hs
    rcases hs.lightbox with ⟨h1, h2, _⟩ | ⟨i, h, h1, _, _, h2, _⟩
    · rw [h2]
      exact hidx
    · rw [h2]
      have hopen : s.lightboxIndex ≠ none := by simp [h1]
      simpa using validIndex_actions _ _ _ hidx hopen (handleKey_cases key)
  | error img => exact onError_valid items s img hs
  | slideChange realIndex =>
    rw [step_slideChange]
    split
    · exact hs
    · exact ⟨hs.hero, hs.grid, hs.lightbox⟩

theorem foldl_step_valid (items : List GalleryItem) (events : List Event) (s : AppState)
    (hs : Valid items s) : Valid items (events.foldl (step items) s) := by
  induction events generalizing s with
  | nil => exact hs
  | cons e rest ih => exact ih _ (step_valid items s e hs)

theorem run_valid (items : List GalleryItem) (events : List Event) :
    Valid items (run items events) :=
  foldl_step_valid items events _ (mount_valid items)

theorem itemAt_isSome (items : List GalleryItem) (i : Int) (h0 : 0 ≤ i)
    (h1 : i < (items.length : Int)) : (itemAt items i).isSome = true := by
  have h : i.toNat < items.length := by omega
  simp [itemAt, h0, h]

theorem handleKey_escape : handleKey "Escape" = [.value none] := by decide

theorem handleKey_arrowRight : handleKey "ArrowRight" = [.next] := by decide

theorem handleKey_arrowLeft : handleKey "ArrowLeft" = [.prev] := by decide

theorem iterate_showNext (len : Nat) (i : Int) (k : Nat) :
    Nat.iterate (fun st => applyActions len st showNext) k (some i) =
      some (Nat.iterate (nextIndex len) k i) := by
  induction k with
  | zero => rfl
  | succ k ih =>
    rw [Function.iterate_succ_apply', ih, Function.iterate_succ_apply']
    rfl

theorem open_listener (items : List GalleryItem) (s : AppState) (i : Int)
    (hs : Valid items s) (hopen : s.lightboxIndex = some i) :
    0 ≤ i ∧ i < (items.length : Int) ∧ ∃ h, s.keydownListeners = [h] := by
  rcases hs.lightbox with ⟨h1, _, _⟩ | ⟨j, h, h1, h0, hlt, h2, _⟩
  · rw [h1] at hopen
    cases hopen
  · rw [h1] at hopen
    cases hopen
    exact ⟨h0, hlt, h, h2⟩

theorem closed_listeners (items : List GalleryItem) (s : AppState)
    (hs : Valid items s) (hclosed : s.lightboxIndex = none) : s.keydownListeners = [] := by
  rcases hs.lightbox with ⟨_, h2, _⟩ | ⟨j, _, h1, _, _, _, _⟩
  · exact h2
  · rw [h1] at hclosed
    cases hclosed

theorem step_click_lightbox (items : List GalleryItem) (s : AppState) (i : Int)
    (target : Element) (hopen : s.lightboxIndex = some i)
    (ht : rendered items s target = s.lightboxIndex.isSome) :
    step items s (.click target) =
      commit items s (applyActions items.length (some i) (dispatchClick target)) := by
  rw [step_click, ht, hopen]
  rfl

theorem step_keydown_open (items : List GalleryItem) (s : AppState) (i : Int) (key : String)
    (hs : Valid items s) (hopen : s.lightboxIndex = some i) :
    step items s (.keydown key) =
      commit items s (applyActions items.length (some i) (handleKey key)) := by
  obtain ⟨_, _, h, hl⟩ := open_listener items s i hs hopen
  rw [step_keydown, hl, hopen]
  simp

theorem dispatchClick_next : dispatchClick .lightboxNext = [.next] := by decide

theorem dispatchClick_prev : dispatchClick .lightboxPrev = [.prev] := by decide

theorem dispatchClick_close : dispatchClick .lightboxClose = [.value none] := by decide

theorem dispatchClick_body : dispatchClick .lightboxBody = [.value none] := by decide

theorem dispatchClick_image : dispatchClick .lightboxImage = [] := by decide

theorem observe_consistent (s : RevealState) (inView : Bool)
    (hs : s.animation = Reveal.effect s.isInView) :
    Reveal.observe s inView = { isInView := inView, animation := Reveal.effect inView } := by
  unfold Reveal.observe
  split
  · next h =>
    subst h
    cases s
    simp_all
  · rfl

theorem foldl_observe (observations : List Bool) (s : RevealState)
    (hs : s.animation = Reveal.effect s.isInView) :
    observations.foldl Reveal.observe s =
      { isInView := observations.getLast?.getD s.isInView,
        animation := Reveal.effect (observations.getLast?.getD s.isInView) } := by
  induction observations generalizing s with
  | nil =>
    cases s
    simp_all
  | cons b rest ih =>
    rw [List.foldl_cons, observe_consistent s b hs, ih _ rfl, List.getLast?_cons]
    simp

/-! ## The lightbox state machine -/

/-- C1: in every state the page reaches from its mount by clicks, key presses, image errors and
slide changes, `lightboxIndex` is `null` or an integer `i` with `0 ≤ i < N`, and then
`galleryItems[i]` is defined. -/
theorem lightboxIndex_in_range (items : List GalleryItem) (events : List Event) :
    (run items events).lightboxIndex = none ∨
    ∃ i : Int, (run items events).lightboxIndex = some i ∧ 0 ≤ i ∧ i < (items.length : Int) ∧
      (itemAt items i).isSome = true := by
  rcases (run_valid items events).lightbox with ⟨h, _, _⟩ | ⟨i, _, h, h0, h1, _, _⟩
  · exact Or.inl h
  · exact Or.inr ⟨i, h, h0, h1, itemAt_isSome items i h0 h1⟩

/-- C3: for a valid index `i` of a list of length `N`, the updaters `(i + 1) % N` and
`(i - 1 + N) % N` undo each other in both orders, as index functions, as the calls queued by
`showNext` and `showPrev`, and as the calls queued by `handleKey` for the two arrow keys. -/
theorem prev_next_inverse (len : Nat) (i : Int) (h0 : 0 ≤ i) (h1 : i < (len : Int)) :
    prevIndex len (nextIndex len i) = i ∧ nextIndex len (prevIndex len i) = i ∧
    applyActions len (applyActions len (some i) showNext) showPrev = some i ∧
    applyActions len (applyActions len (some i) showPrev) showNext = some i ∧
    applyActions len (applyActions len (some i) (handleKey "ArrowRight"))
      (handleKey "ArrowLeft") = some i ∧
    applyActions len (applyActions len (some i) (handleKey "ArrowLeft"))
      (handleKey "ArrowRight") = some i := by
  have hn := nextIndex_range len i h0 h1
  have hp := prevIndex_range len i h0 h1
  have a : prevIndex len (nextIndex len i) = i := by
    rw [prevIndex_eq len _ hn.1 hn.2, nextIndex_eq len i h0 h1]
    split <;> split <;> omega
  have b : nextIndex len (prevIndex len i) = i := by
    rw [nextIndex_eq len _ hp.1 hp.2, prevIndex_eq len i h0 h1]
    split <;> split <;> omega
  refine ⟨a, b, ?_, ?_, ?_, ?_⟩
  · simp [applyActions, applyAction, showNext, showPrev, toNumber, a]
  · simp [applyActions, applyAction, showNext, showPrev, toNumber, b]
  · simp [handleKey_arrowRight, handleKey_arrowLeft, applyActions, applyAction, toNumber, a]
  · simp [handleKey_arrowRight, handleKey_arrowLeft, applyActions, applyAction, toNumber, b]

/-- C3 at the ninth item of a list of nine. -/
theorem prev_next_inverse_witness :
    (0 : Int) ≤ 8 ∧ (8 : Int) < ((9 : Nat) : Int) ∧
    prevIndex 9 (nextIndex 9 8) = 8 ∧ nextIndex 9 (prevIndex 9 8) = 8 :=
  ⟨by decide, by decide, (prev_next_inverse 9 8 (by decide) (by decide)).1,
    (prev_next_inverse 9 8 (by decide) (by decide)).2.1⟩

/-- C4: for a valid index `i` of a list of length `N`, applying the updater `(i + 1) % N`
exactly `N` times gives `i` again, and so do `N` calls of `showNext` from `Open(i)`. -/
theorem next_iterate_length (len : Nat) (i : Int) (h0 : 0 ≤ i) (h1 : i < (len : Int)) :
    Nat.iterate (nextIndex len) len i = i ∧
    Nat.iterate (fun st => applyActions len st showNext) len (some i) = some i := by
  have a : Nat.iterate (nextIndex len) len i = i := by
    rw [iterate_nextIndex len i h0 h1, Int.add_emod_self]
    exact Int.emod_eq_of_lt h0 h1
  exact ⟨a, by rw [iterate_showNext, a]⟩

/-- C4 at index 4 of a list of nine. -/
theorem next_iterate_length_witness :
    (0 : Int) ≤ 4 ∧ (4 : Int) < ((9 : Nat) : Int) ∧ Nat.iterate (nextIndex 9) 9 4 = 4 :=
  ⟨by decide, by decide, (next_iterate_length 9 4 (by decide) (by decide)).1⟩

/-- C2: from a reached state `Open(i)` the next button gives `Open((i + 1) mod N)` and an
ArrowRight keydown gives the same state as the next button; the previous button gives
`Open((i - 1 + N) mod N)` and an ArrowLeft keydown gives the same state as the previous
button.  With the nine compiled-in items: selecting item 0 then ArrowLeft gives `Open(8)`, and
two more ArrowRight give `Open(1)`. -/
theorem next_prev_button_and_key (items : List GalleryItem) (events : List Event) (i : Int)
    (hopen : (run items events).lightboxIndex = some i) :
    (step items (run items events) (.click .lightboxNext)).lightboxIndex
      = some ((i + 1) % (items.length : Int)) ∧
    step items (run items events) (.keydown "ArrowRight")
      = step items (run items events) (.click .lightboxNext) ∧
    (step items (run items events) (.click .lightboxPrev)).lightboxIndex
      = some ((i - 1 + (items.length : Int)) % (items.length : Int)) ∧
    step items (run items events) (.keydown "ArrowLeft")
      = step items (run items events) (.click .lightboxPrev) ∧
    (run galleryItems [.click (.galleryCard 0), .keydown "ArrowLeft"]).lightboxIndex = some 8 ∧
    (run galleryItems [.click (.galleryCard 0), .keydown "ArrowLeft", .keydown "ArrowRight",
      .keydown "ArrowRight"]).lightboxIndex = some 1 := by
  have hv := run_valid items events
  obtain ⟨h0, h1, _⟩ := open_listener items _ i hv hopen
  have hlen : 1 ≤ items.length := by omega
  have hr : ∀ t, t = Element.lightboxNext ∨ t = Element.lightboxPrev →
      rendered items (run items events) t = (run items events).lightboxIndex.isSome := by
    intro t ht
    rcases ht with h | h <;> subst h <;> rfl
  rw [step_keydown_open items _ i "ArrowRight" hv hopen,
    step_keydown_open items _ i "ArrowLeft" hv hopen,
    step_click_lightbox items _ i .lightboxNext hopen (hr _ (Or.inl rfl)),
    step_click_lightbox items _ i .lightboxPrev hopen (hr _ (Or.inr rfl)),
    handleKey_arrowRight, handleKey_arrowLeft, dispatchClick_next, dispatchClick_prev,
    commit_lightboxIndex, commit_lightboxIndex]
  refine ⟨?_, rfl, ?_, rfl, by decide, by decide⟩
  · simp [applyActions, applyAction, toNumber, nextIndex_emod items.length i h0]
  · simp [applyActions, applyAction, toNumber, prevIndex_emod items.length i h0 hlen]

/-- C2 on the nine compiled-in items, from the state reached by selecting item 0. -/
theorem next_prev_button_and_key_witness :
    (run galleryItems [.click (.galleryCard 0)]).lightboxIndex = some 0 ∧
    (step galleryItems (run galleryItems [.click (.galleryCard 0)])
      (.click .lightboxNext)).lightboxIndex = some ((0 + 1) % (galleryItems.length : Int)) ∧
    step galleryItems (run galleryItems [.click (.galleryCard 0)]) (.keydown "ArrowRight")
      = step galleryItems (run galleryItems [.click (.galleryCard 0)]) (.click .lightboxNext) :=
  ⟨by decide,
    (next_prev_button_and_key galleryItems [.click (.galleryCard 0)] 0 (by decide)).1,
    (next_prev_button_and_key galleryItems [.click (.galleryCard 0)] 0 (by decide)).2.1⟩

/-- C5: when `lightboxIndex` is `null` the keydown effect registers nothing and leaves no
cleanup; so in a reached state with the lightbox closed no `handleKey` is registered and a
keydown of any key leaves the whole state, still closed, as it was. -/
theorem keydown_while_closed (items : List GalleryItem) (events : List Event) (key : String)
    (hclosed : (run items events).lightboxIndex = none) :
    (∀ s : AppState, s.lightboxIndex = none →
      (keydownEffect s).keydownListeners = s.keydownListeners ∧
      (keydownEffect s).cleanup = none) ∧
    (run items events).keydownListeners = [] ∧
    step items (run items events) (.keydown key) = run items events ∧
    (step items (run items events) (.keydown key)).lightboxIndex = none := by
  have hl := closed_listeners items _ (run_valid items events) hclosed
  have hstep : step items (run items events) (.keydown key) = run items events := by
    rw [step_keydown, hl]
    simp [applyActions, commit]
  refine ⟨?_, hl, hstep, by rw [hstep, hclosed]⟩
  intro s hs
  simp [keydownEffect, hs]

/-- C5 on the nine compiled-in items: Escape after the lightbox was opened and closed. -/
theorem keydown_while_closed_witness :
    (run galleryItems [.click (.galleryCard 2), .click .lightboxClose]).lightboxIndex = none ∧
    step galleryItems (run galleryItems [.click (.galleryCard 2), .click .lightboxClose])
      (.keydown "Escape")
      = run galleryItems [.click (.galleryCard 2), .click .lightboxClose] :=
  ⟨by decide,
    (keydown_while_closed galleryItems [.click (.galleryCard 2), .click .lightboxClose]
      "Escape" (by decide)).2.2.1⟩

/-- C6: after every sequence of events the number of `handleKey` listeners registered on
`window` is 1 when the lightbox is open and 0 when it is closed. -/
theorem listener_count (items : List GalleryItem) (events : List Event) :
    (run items events).keydownListeners.length =
      if (run items events).lightboxIndex.isSome then 1 else 0 := by
  rcases (run_valid items events).lightbox with ⟨h1, h2, _⟩ | ⟨i, h, h1, _, _, h2, _⟩
  · simp [h1, h2]
  · simp [h1, h2]

/-- C7: `openLightbox(j)` leaves `lightboxIndex = j` whatever the value before, and a click on
the card of item `k` in any reached state gives `Open(k)`; from a reached state `Open(i)` the
close button, a click on the backdrop and an Escape keydown each give `Closed`; and `handleKey`
on Escape queues the one update `setLightboxIndex(null)` and no navigation update. -/
theorem open_and_dismiss (items : List GalleryItem) (events : List Event) :
    (∀ (st : Option Int) (j : Int), applyActions items.length st (openLightbox j) = some j) ∧
    (∀ k : Nat, k < items.length →
      (step items (run items events) (.click (.galleryCard k))).lightboxIndex
        = some (k : Int)) ∧
    (∀ i : Int, (run items events).lightboxIndex = some i →
      (step items (run items events) (.click .lightboxClose)).lightboxIndex = none ∧
      (step items (run items events) (.click .lightboxBody)).lightboxIndex = none ∧
      (step items (run items events) (.keydown "Escape")).lightboxIndex = none) ∧
    handleKey "Escape" = [.value none] := by
  refine ⟨fun _ _ => rfl, ?_, ?_, handleKey_escape⟩
  · intro k hk
    have hr : rendered items (run items events) (.galleryCard k) = true := by
      simp [rendered, hk]
    rw [step_click, hr, if_pos rfl, commit_lightboxIndex]
    rfl
  · intro i hopen
    have hv := run_valid items events
    rw [step_keydown_open items _ i "Escape" hv hopen,
      step_click_lightbox items _ i .lightboxClose hopen rfl,
      step_click_lightbox items _ i .lightboxBody hopen rfl,
      handleKey_escape, dispatchClick_close, dispatchClick_body, commit_lightboxIndex]
    exact ⟨rfl, rfl, rfl⟩

/-- C7 on the nine compiled-in items: item 5 is opened over `Open(3)`, and `Open(3)` is
dismissed by Escape. -/
theorem open_and_dismiss_witness :
    5 < galleryItems.length ∧
    (step galleryItems (run galleryItems [.click (.galleryCard 3)])
      (.click (.galleryCard 5))).lightboxIndex = some 5 ∧
    (run galleryItems [.click (.galleryCard 3)]).lightboxIndex = some 3 ∧
    (step galleryItems (run galleryItems [.click (.galleryCard 3)])
      (.keydown "Escape")).lightboxIndex = none :=
  ⟨by decide,
    (open_and_dismiss galleryItems [.click (.galleryCard 3)]).2.1 5 (by decide),
    by decide,
    ((open_and_dismiss galleryItems [.click (.galleryCard 3)]).2.2.1 3 (by decide)).2.2⟩

/-- C9: in a reached state `Open(i)` a click whose target is the lightbox image queues no
update, because the handler of the image stops the propagation before `div.lightbox-body`, and
leaves the state as it was; a click whose target is `div.lightbox-body` runs `closeLightbox`
and gives `Closed`. -/
theorem image_click_keeps_open (items : List GalleryItem) (events : List Event) (i : Int)
    (hopen : (run items events).lightboxIndex = some i) :
    dispatchClick .lightboxImage = [] ∧
    step items (run items events) (.click .lightboxImage) = run items events ∧
    (step items (run items events) (.click .lightboxImage)).lightboxIndex = some i ∧
    dispatchClick .lightboxBody = closeLightbox ∧
    (step items (run items events) (.click .lightboxBody)).lightboxIndex = none := by
  have himg : step items (run items events) (.click .lightboxImage) = run items events := by
    rw [step_click_lightbox items _ i .lightboxImage hopen rfl, dispatchClick_image]
    simp [applyActions, commit, hopen]
  refine ⟨dispatchClick_image, himg, by rw [himg, hopen], dispatchClick_body, ?_⟩
  rw [step_click_lightbox items _ i .lightboxBody hopen rfl, dispatchClick_body,
    commit_lightboxIndex]
  rfl

/-- C9 on the nine compiled-in items, with the lightbox open at item 6. -/
theorem image_click_keeps_open_witness :
    (run galleryItems [.click (.galleryCard 6)]).lightboxIndex = some 6 ∧
    (step galleryItems (run galleryItems [.click (.galleryCard 6)])
      (.click .lightboxImage)).lightboxIndex = some 6 ∧
    (step galleryItems (run galleryItems [.click (.galleryCard 6)])
      (.click .lightboxBody)).lightboxIndex = none :=
  ⟨by decide,
    (image_click_keeps_open galleryItems [.click (.galleryCard 6)] 6 (by decide)).2.2.1,
    (image_click_keeps_open galleryItems [.click (.galleryCard 6)] 6 (by decide)).2.2.2.2⟩

/-! ## Image fallback -/

/-- C10: every item of `galleryItems` has `fallback = placeholderSvg(title)`; and in every
reached state an `error` event on the hero image or the gallery image of an item, or on the
lightbox image while the lightbox shows an item, leaves that image with the fallback of that
same item as its `src` and leaves `activeIndex` and `lightboxIndex` as they were. -/
theorem fallback_on_error (items : List GalleryItem) (events : List Event) :
    (∀ item ∈ galleryItems, item.fallback = placeholderSvg item.title) ∧
    (∀ (k : Nat) (item : GalleryItem), items[k]? = some item →
      (step items (run items events) (.error (.hero k))).displayedSrc (.hero k)
        = some item.fallback ∧
      (step items (run items events) (.error (.hero k))).activeIndex
        = (run items events).activeIndex ∧
      (step items (run items events) (.error (.hero k))).lightboxIndex
        = (run items events).lightboxIndex ∧
      (step items (run items events) (.error (.grid k))).displayedSrc (.grid k)
        = some item.fallback ∧
      (step items (run items events) (.error (.grid k))).activeIndex
        = (run items events).activeIndex ∧
      (step items (run items events) (.error (.grid k))).lightboxIndex
        = (run items events).lightboxIndex) ∧
    (∀ (i : Int) (item : GalleryItem), (run items events).lightboxIndex = some i →
      itemAt items i = some item →
      (step items (run items events) (.error .lightbox)).displayedSrc .lightbox
        = some item.fallback ∧
      (step items (run items events) (.error .lightbox)).activeIndex
        = (run items events).activeIndex ∧
      (step items (run items events) (.error .lightbox)).lightboxIndex
        = (run items events).lightboxIndex) := by
  have hv := run_valid items events
  refine ⟨?_, ?_, ?_⟩
  · intro item hitem
    obtain ⟨raw, _, hraw⟩ := List.mem_map.mp hitem
    rw [← hraw]
    rfl
  · intro k item hk
    have hlt : k < items.length := (List.getElem?_eq_some.mp hk).1
    have hh : k < (run items events).heroSrc.length := by rw [hv.hero]; exact hlt
    have hg : k < (run items events).gridSrc.length := by rw [hv.grid]; exact hlt
    simp [step_error, onError, hk, AppState.displayedSrc, hh, hg]
  · intro i item hopen hitem
    simp [step_error, onError, hopen, hitem, AppState.displayedSrc]

/-- C10 on the nine compiled-in items: the error handlers for item 2, and the one of the
lightbox open at item 2. -/
theorem fallback_on_error_witness :
    galleryItems[2]? = some (withFallback ⟨"Himiko Toga", "2020", "/art/TOGA.jpg"⟩) ∧
    (step galleryItems (run galleryItems [.click (.galleryCard 2)])
      (.error (.grid 2))).displayedSrc (.grid 2) = some (placeholderSvg "Himiko Toga") ∧
    (run galleryItems [.click (.galleryCard 2)]).lightboxIndex = some 2 ∧
    itemAt galleryItems 2 = some (withFallback ⟨"Himiko Toga", "2020", "/art/TOGA.jpg"⟩) ∧
    (step galleryItems (run galleryItems [.click (.galleryCard 2)])
      (.error .lightbox)).displayedSrc .lightbox = some (placeholderSvg "Himiko Toga") :=
  ⟨rfl,
    ((fallback_on_error galleryItems [.click (.galleryCard 2)]).2.1 2
      (withFallback ⟨"Himiko Toga", "2020", "/art/TOGA.jpg"⟩) rfl).2.2.2.1,
    by decide, rfl,
    ((fallback_on_error galleryItems [.click (.galleryCard 2)]).2.2 2
      (withFallback ⟨"Himiko Toga", "2020", "/art/TOGA.jpg"⟩) (by decide) rfl).1⟩

/-! ## Reveal -/

/-- C8 fails: a section observed in view and then out of view is driven to `visible` and then
back to `hidden`. -/
theorem reveal_driven_back_to_hidden :
    (Reveal.run [true]).animation = .visible ∧
    (Reveal.run [true, false]).animation = .hidden := by
  decide

/-- C8 as amended: after any sequence of observations a `Reveal` holds the last observation
(`false` when there was none) and has been driven to `visible` when that observation is in
view and to `hidden` otherwise. -/
theorem reveal_follows_last_observation (observations : List Bool) :
    (Reveal.run observations).isInView = observations.getLast?.getD false ∧
    (Reveal.run observations).animation =
      if observations.getLast?.getD false then Variant.visible else Variant.hidden := by
  unfold Reveal.run
  rw [foldl_observe observations Reveal.mount rfl]
  exact ⟨rfl, rfl⟩

end ArtGallery
